import Mathlib

/-!
Shallow embedding of the core of the `brink_modbus` Home Assistant custom
integration (coordinator, register catalog, number/select write paths) and
proofs about it.

Conventions of the embedding:
* Register words read from the device are natural numbers (`Nat`, one 16-bit
  Modbus register).  Snapshot values are exact rationals (`ℚ`): Python float
  scaling `value * scale` is modelled over `ℚ`, so `153 * 0.1` is `153/10`.
* The Modbus transport (pymodbus) is modelled as an oracle `Device` giving,
  for every read or write, one of: a successful reply, a protocol-level error
  reply (`result.isError()` true), or a raised exception.  `Client.connect`
  models `AsyncModbusSerialClient.connect()`, which per the transport contract
  fails by raising (`ConnectionException` / `ModbusException` / other).
* Python dicts with unique keys are modelled as association lists in insertion
  order; `dict.get` is `snapGet` (first matching key).
* `asyncio.sleep`, device writes and `async_request_refresh` are recorded as
  events in a trace, so ordering claims are statements about the trace.
-/

/-- Outcome of one single-register read call on the transport:
successful reply carrying the raw register word, protocol-level error reply
(`result.isError()`), or an exception raised during the call. -/
inductive ReadOutcome where
  | ok (w : Nat)
  | errorReply
  | raises
deriving DecidableEq

/-- Outcome of one single-register write call on the transport. -/
inductive WriteOutcome where
  | ok
  | errorReply
  | raises
deriving DecidableEq

/-- Oracle for the device answers over the serial link: what each
input-register read, holding-register read and register write returns. -/
structure Device where
  readInput : Nat → ReadOutcome
  readHolding : Nat → ReadOutcome
  write : Nat → Int → WriteOutcome

/-- What `client.connect()` does when called: succeed, or raise a
`ConnectionException`, a `ModbusException`, or some other exception. -/
inductive ConnectResult where
  | ok
  | raiseConn
  | raiseModbus
  | raiseOther
deriving DecidableEq

/-- The modbus client connection state: `connected` mirrors
`self.client.connected`; `connect` is the behaviour of `client.connect()`
when invoked. -/
structure Client where
  connected : Bool
  connect : ConnectResult

/-- One entry of the register catalog (`const.py`): address, declared data
type, optional scale multiplier, optional min/max write bounds. -/
structure RegConfig where
  address : Nat
  dataType : String
  scale : Option ℚ := none
  minV : Option Int := none
  maxV : Option Int := none
deriving DecidableEq

/-- `INPUT_REGISTERS` from `const.py` (key, address, scale), in source
order.  All entries declare data type `int16`; units/device classes are
presentation-only and omitted. -/
def INPUT_REGISTERS : List (String × RegConfig) := [
  ("device_type", { address := 4004, dataType := "int16" }),
  ("serial_number_1", { address := 4010, dataType := "int16" }),
  ("serial_number_2", { address := 4011, dataType := "int16" }),
  ("software_version", { address := 4012, dataType := "int16" }),
  ("supply_pressure", { address := 4023, dataType := "int16", scale := some (1/10) }),
  ("exhaust_pressure", { address := 4024, dataType := "int16", scale := some (1/10) }),
  ("supply_volume_setpoint", { address := 4031, dataType := "int16" }),
  ("supply_volume_actual", { address := 4032, dataType := "int16" }),
  ("exhaust_volume_setpoint", { address := 4041, dataType := "int16" }),
  ("exhaust_volume_actual", { address := 4042, dataType := "int16" }),
  ("supply_fan_rpm", { address := 4034, dataType := "int16" }),
  ("exhaust_fan_rpm", { address := 4044, dataType := "int16" }),
  ("supply_air_temperature", { address := 4036, dataType := "int16", scale := some (1/10) }),
  ("supply_air_humidity", { address := 4037, dataType := "int16" }),
  ("exhaust_air_temperature", { address := 4046, dataType := "int16", scale := some (1/10) }),
  ("exhaust_air_humidity", { address := 4047, dataType := "int16" }),
  ("outside_temperature", { address := 4081, dataType := "int16", scale := some (1/10) }),
  ("bypass_state", { address := 4050, dataType := "int16" }),
  ("preheater_state", { address := 4060, dataType := "int16" }),
  ("preheater_power", { address := 4061, dataType := "int16" }),
  ("filter_state", { address := 4100, dataType := "int16" }),
  ("filter_usage_hours", { address := 4115, dataType := "int16" }),
  ("co2_sensor_1", { address := 4201, dataType := "int16" }),
  ("co2_sensor_2", { address := 4203, dataType := "int16" }),
  ("co2_sensor_3", { address := 4205, dataType := "int16" }),
  ("co2_sensor_4", { address := 4207, dataType := "int16" })]

/-- `HOLDING_REGISTERS` from `const.py` (key, address, min, max), in source
order.  All entries declare data type `int16` and no scale. -/
def HOLDING_REGISTERS : List (String × RegConfig) := [
  ("flow_level_0_absence", { address := 6000, dataType := "int16", minV := some 0, maxV := some 325 }),
  ("flow_level_1_low", { address := 6001, dataType := "int16", minV := some 0, maxV := some 325 }),
  ("flow_level_2_normal", { address := 6002, dataType := "int16", minV := some 0, maxV := some 325 }),
  ("flow_level_3_high", { address := 6003, dataType := "int16", minV := some 0, maxV := some 325 }),
  ("imbalance_allowed", { address := 6033, dataType := "int16", minV := some 0, maxV := some 1 }),
  ("supply_imbalance_offset", { address := 6035, dataType := "int16", minV := some (-15), maxV := some 15 }),
  ("exhaust_imbalance_offset", { address := 6036, dataType := "int16", minV := some (-15), maxV := some 15 }),
  ("bypass_mode_setting", { address := 6100, dataType := "int16", minV := some 0, maxV := some 2 }),
  ("co2_sensor_mode", { address := 6150, dataType := "int16", minV := some 0, maxV := some 1 }),
  ("geo_heat_exchanger", { address := 6240, dataType := "int16", minV := some 0, maxV := some 1 }),
  ("geo_min_temperature", { address := 6241, dataType := "int16", minV := some 0, maxV := some 100 }),
  ("geo_max_temperature", { address := 6242, dataType := "int16", minV := some 150, maxV := some 400 }),
  ("slave_address", { address := 7991, dataType := "int16", minV := some 1, maxV := some 247 }),
  ("modbus_control", { address := 8000, dataType := "int16", minV := some 0, maxV := some 2 }),
  ("power_switch_position", { address := 8001, dataType := "int16", minV := some 0, maxV := some 3 }),
  ("flow_setpoint", { address := 8002, dataType := "int16", minV := some 50, maxV := some 325 }),
  ("device_reset", { address := 8011, dataType := "int16", minV := some 0, maxV := some 1 })]

/-- The fixed key list selecting the holding registers that the poll cycle
reads (`setting_registers` comprehension in `_async_update_data`). -/
def settingKeys : List String := [
  "bypass_mode_setting", "power_switch_position", "modbus_control",
  "flow_level_0_absence", "flow_level_1_low", "flow_level_2_normal", "flow_level_3_high",
  "supply_imbalance_offset", "exhaust_imbalance_offset",
  "geo_min_temperature", "geo_max_temperature",
  "flow_setpoint"]

/-- `setting_registers` from `_async_update_data`: the holding registers
backing writable controls, in `HOLDING_REGISTERS` order. -/
def setting_registers : List (String × RegConfig) :=
  HOLDING_REGISTERS.filter (fun p => settingKeys.contains p.1)

/-- `value = result.registers[0]; if "scale" in config: value *= scale` —
the scaled value stored in the snapshot for one read register word. -/
def scaleValue (cfg : RegConfig) (w : Nat) : ℚ :=
  match cfg.scale with
  | some s => (w : ℚ) * s
  | none => (w : ℚ)

/-- The raw (unscaled) value as stored by the holding-register loops. -/
def rawValue (_cfg : RegConfig) (w : Nat) : ℚ := (w : ℚ)

/-- `dict.get(key)` on an insertion-ordered association list (keys unique in
all dicts this program builds): first entry with the key, else `none`. -/
def snapGet (d : List (String × ℚ)) (k : String) : Option ℚ :=
  match d with
  | [] => none
  | p :: rest => if p.1 = k then some p.2 else snapGet rest k

/-- One register-reading loop of the coordinator: for each catalog entry
issue the read; on a successful reply store `val cfg w` under the key; on an
error reply or an exception (both caught per-register) skip the key and
continue with the rest. -/
def regReadLoop (read : Nat → ReadOutcome) (val : RegConfig → Nat → ℚ)
    (regs : List (String × RegConfig)) (acc : List (String × ℚ)) :
    List (String × ℚ) :=
  match regs with
  | [] => acc
  | p :: rest =>
    match read p.2.address with
    | .ok w => regReadLoop read val rest (acc ++ [(p.1, val p.2 w)])
    | _ => regReadLoop read val rest acc

/-- The row a single catalog entry contributes to the snapshot, if any. -/
def readRow (read : Nat → ReadOutcome) (val : RegConfig → Nat → ℚ)
    (p : String × RegConfig) : Option (String × ℚ) :=
  match read p.2.address with
  | .ok w => some (p.1, val p.2 w)
  | _ => none

/-- Whether the read of one catalog entry succeeds (its key survives). -/
def readOk (read : Nat → ReadOutcome) (p : String × RegConfig) : Bool :=
  match read p.2.address with
  | .ok _ => true
  | _ => false

/-- Body of `_async_update_data` after the connect step: the input-register
loop (scaled values) followed by the setting-register loop (raw values),
building one dict. -/
def updateBody (dev : Device) : List (String × ℚ) :=
  regReadLoop dev.readHolding rawValue setting_registers
    (regReadLoop dev.readInput scaleValue INPUT_REGISTERS [])

/-- The `UpdateFailed` variants `_async_update_data` can raise, by the
exception class that was caught. -/
inductive UpdateError where
  | connectionError
  | modbusError
  | unexpectedError
deriving DecidableEq

/-- `BrinkCoordinator._async_update_data`: connect if not connected (a raised
exception propagates to the outer handler and becomes `UpdateFailed`), then
run both read loops — whose per-register failures are caught inside — and
return the new snapshot dict. -/
def async_update_data (c : Client) (dev : Device) :
    Except UpdateError (List (String × ℚ)) :=
  if c.connected then .ok (updateBody dev)
  else
    match c.connect with
    | .ok => .ok (updateBody dev)
    | .raiseConn => .error .connectionError
    | .raiseModbus => .error .modbusError
    | .raiseOther => .error .unexpectedError

-- The write path.

/-- Observable events of a write operation: a write issued on the link
(`client.write_register`), a forced refresh request
(`async_request_refresh`), and an `asyncio.sleep` (milliseconds). -/
inductive Ev where
  | devWrite (addr : Nat) (v : Int)
  | refresh
  | sleep (ms : Nat)
deriving DecidableEq

/-- Body of the `try` in `BrinkCoordinator.async_write_register`: connect if
not connected (a raised exception escapes the body), issue the write, return
`False` on an error reply, otherwise request a refresh and return `True`.
`Except.error ()` marks an exception escaping to the `except` handler. -/
def write_register_try (c : Client) (dev : Device) (addr : Nat) (v : Int) :
    Except Unit Bool × List Ev :=
  if c.connected = false ∧ c.connect ≠ ConnectResult.ok then (.error (), [])
  else
    match dev.write addr v with
    | .ok => (.ok true, [.devWrite addr v, .refresh])
    | .errorReply => (.ok false, [.devWrite addr v])
    | .raises => (.error (), [.devWrite addr v])

/-- `BrinkCoordinator.async_write_register`: the `try` body with every
exception caught by `except Exception` and turned into `False`. -/
def async_write_register (c : Client) (dev : Device) (addr : Nat) (v : Int) :
    Bool × List Ev :=
  match write_register_try c dev addr v with
  | (.ok b, t) => (b, t)
  | (.error _, t) => (false, t)

/-- `HOLDING_REGISTERS[key]["address"]` (all keys used by the entities are
present in the catalog). -/
def holdingAddress (k : String) : Nat :=
  match HOLDING_REGISTERS.lookup k with
  | some cfg => cfg.address
  | none => 0

/-- Python `int()` applied to an exact rational: truncation toward zero. -/
def pyInt (q : ℚ) : Int := if 0 ≤ q then q.floor else q.ceil

/-- Outcome of an entity set operation, distinguishing the code paths of the
Python method (which itself returns `None` and reports through its logger):
rejected before any handler ran, invalid option, precondition mode write
failed (early return after the error log), target write failed, success. -/
inductive SetOutcome where
  | validationError
  | invalidOption
  | modeWriteFailed
  | targetWriteFailed
  | success
deriving DecidableEq

/-- `self.coordinator.data.get("modbus_control") if self.coordinator.data
else None`: the cached control mode consulted by the guarded writes. -/
def modeOf (data : Option (List (String × ℚ))) : Option ℚ :=
  match data with
  | none => none
  | some d => snapGet d "modbus_control"

/-- `BrinkFlowSetpointNumber.async_set_native_value`: read the cached
`modbus_control` value from the coordinator snapshot (`None` when there is no
data); when it differs from 2, first write mode 2, abort on failure,
otherwise sleep 0.5 s; then write the setpoint register with `int(value)`. -/
def flowSetpoint_set_native_value (c : Client) (dev : Device)
    (data : Option (List (String × ℚ))) (value : ℚ) : SetOutcome × List Ev :=
  let current_control_mode : Option ℚ := modeOf data
  if current_control_mode ≠ some 2 then
    let r₁ := async_write_register c dev (holdingAddress "modbus_control") 2
    if r₁.1 = false then (.modeWriteFailed, r₁.2)
    else
      let r₂ := async_write_register c dev (holdingAddress "flow_setpoint") (pyInt value)
      (if r₂.1 then .success else .targetWriteFailed, r₁.2 ++ [.sleep 500] ++ r₂.2)
  else
    let r := async_write_register c dev (holdingAddress "flow_setpoint") (pyInt value)
    (if r.1 then .success else .targetWriteFailed, r.2)

/-- `POWER_SWITCH_MAP` from `const.py`. -/
def POWER_SWITCH_MAP : List (Nat × String) :=
  [(0, "Absence"), (1, "Low"), (2, "Normal"), (3, "High"), (4, "Manual")]

/-- The option-to-value loop of the select entities: first map entry whose
text equals the chosen option. -/
def optionToValue (m : List (Nat × String)) (o : String) : Option Nat :=
  match m with
  | [] => none
  | p :: rest => if p.2 = o then some p.1 else optionToValue rest o

/-- `BrinkPowerSwitchSelect.async_select_option`: map the option text to its
numeric value (unknown text is rejected); when the cached `modbus_control`
differs from 1, first write mode 1, abort on failure, otherwise sleep 0.5 s;
then write the power switch register. -/
def powerSwitch_select_option (c : Client) (dev : Device)
    (data : Option (List (String × ℚ))) (o : String) : SetOutcome × List Ev :=
  match optionToValue POWER_SWITCH_MAP o with
  | none => (.invalidOption, [])
  | some switch_value =>
    let current_control_mode : Option ℚ := modeOf data
    if current_control_mode ≠ some 1 then
      let r₁ := async_write_register c dev (holdingAddress "modbus_control") 1
      if r₁.1 = false then (.modeWriteFailed, r₁.2)
      else
        let r₂ := async_write_register c dev (holdingAddress "power_switch_position")
          (switch_value : Int)
        (if r₂.1 then .success else .targetWriteFailed, r₁.2 ++ [.sleep 500] ++ r₂.2)
    else
      let r := async_write_register c dev (holdingAddress "power_switch_position")
        (switch_value : Int)
      (if r.1 then .success else .targetWriteFailed, r.2)

/-- The set method shared by `BrinkFlowLevelNumber`,
`BrinkImbalanceOffsetNumber` and `BrinkGeoTemperatureNumber` (their bodies
are identical): write `int(value)` to the entity's register. -/
def numberEntity_set_native_value (c : Client) (dev : Device) (k : String)
    (value : ℚ) : SetOutcome × List Ev :=
  let r := async_write_register c dev (holdingAddress k) (pyInt value)
  (if r.1 then .success else .targetWriteFailed, r.2)

/-- Modelled from the spec: the value validation step of the write path is
not part of this repository's sources — it is Home Assistant core's number
service layer, which checks the requested value against the entity's declared
`native_min_value`/`native_max_value` before invoking the integration's
`async_set_native_value` ("value is validated against the descriptor's
declared bounds before the call (out-of-bounds is an input-validation
failure, never sent to the device)").  An out-of-bounds value is rejected
with no handler invocation and hence an empty event trace. -/
def ha_number_set_value (minB maxB : ℚ) (value : ℚ)
    (handler : ℚ → SetOutcome × List Ev) : SetOutcome × List Ev :=
  if value < minB ∨ maxB < value then (.validationError, [])
  else handler value

/-- The `min`/`max` bounds a number entity declares to Home Assistant
(`self._config.get("min", dflt)` / `self._config.get("max", dflt)`). -/
def entityBounds (k : String) (dmin dmax : Int) : ℚ × ℚ :=
  match HOLDING_REGISTERS.lookup k with
  | some cfg => ((cfg.minV.getD dmin : Int), (cfg.maxV.getD dmax : Int))
  | none => ((dmin : Int), (dmax : Int))

-- The diagnostic dump.

/-- The prefixed input-register catalog `readAll` iterates
(`data[f"input_{sensor_name}"]`). -/
def inputRegistersPrefixed : List (String × RegConfig) :=
  INPUT_REGISTERS.map (fun p => ("input_" ++ p.1, p.2))

/-- The prefixed holding-register catalog `readAll` iterates
(`data[f"holding_{sensor_name}"]`). -/
def holdingRegistersPrefixed : List (String × RegConfig) :=
  HOLDING_REGISTERS.map (fun p => ("holding_" ++ p.1, p.2))

/-- Body of `async_read_all_registers`: a fresh full pass over every input
register (scale applied, as in the poll loop) and then over every holding
register (raw value), keys prefixed by the bank, failed reads omitted. -/
def readAllBody (dev : Device) : List (String × ℚ) :=
  regReadLoop dev.readHolding rawValue holdingRegistersPrefixed
    (regReadLoop dev.readInput scaleValue inputRegistersPrefixed [])

/-- `BrinkCoordinator.async_read_all_registers`: connect if needed; any
exception escaping (e.g. from `connect`) is caught and an empty dict
returned; otherwise both best-effort read passes run. -/
def async_read_all_registers (c : Client) (dev : Device) : List (String × ℚ) :=
  if c.connected then readAllBody dev
  else
    match c.connect with
    | .ok => readAllBody dev
    | _ => []

-- Two-pass dict-building helpers shared by the poll cycle and the dump.

/-- Two register-reading passes building one dict, the shared shape of
`_async_update_data` and `async_read_all_registers`. -/
def twoPass (read₁ : Nat → ReadOutcome) (val₁ : RegConfig → Nat → ℚ)
    (regs₁ : List (String × RegConfig))
    (read₂ : Nat → ReadOutcome) (val₂ : RegConfig → Nat → ℚ)
    (regs₂ : List (String × RegConfig)) : List (String × ℚ) :=
  regReadLoop read₂ val₂ regs₂ (regReadLoop read₁ val₁ regs₁ [])

-- Concrete clients and devices used as evaluation witnesses.

/-- A client that is already connected. -/
def connectedClient : Client := { connected := true, connect := .ok }

/-- A disconnected client whose reconnect attempt raises
`ConnectionException`. -/
def downClient : Client := { connected := false, connect := .raiseConn }

/-- A device answering every read and write successfully. -/
def devAllOk : Device :=
  { readInput := fun _ => .ok 100, readHolding := fun _ => .ok 1,
    write := fun _ _ => .ok }

/-- A device where only input register 4023 (`supply_pressure`) reads
successfully, with raw word 153. -/
def dev153 : Device :=
  { readInput := fun a => if a = 4023 then .ok 153 else .errorReply,
    readHolding := fun _ => .errorReply, write := fun _ _ => .ok }

/-- A device where only holding register 6035 (`supply_imbalance_offset`)
reads successfully, with raw word 0xFFFF = 65535 (the int16 encoding of -1).
-/
def dev65535 : Device :=
  { readInput := fun _ => .errorReply,
    readHolding := fun a => if a = 6035 then .ok 65535 else .errorReply,
    write := fun _ _ => .ok }

/-- The guarded-write code block shared verbatim by
`BrinkFlowSetpointNumber.async_set_native_value` and
`BrinkPowerSwitchSelect.async_select_option`: write the required value to
`modbus_control`, abort reporting the mode-write failure when it returns
false, otherwise sleep 0.5 s and write the target register. -/
def guardShape (c : Client) (dev : Device) (modeVal : Int) (targetAddr : Nat)
    (targetVal : Int) : SetOutcome × List Ev :=
  let r₁ := async_write_register c dev (holdingAddress "modbus_control") modeVal
  if r₁.1 = false then (.modeWriteFailed, r₁.2)
  else
    let r₂ := async_write_register c dev targetAddr targetVal
    (if r₂.1 then .success else .targetWriteFailed, r₁.2 ++ [.sleep 500] ++ r₂.2)

/-- A device whose write calls raise a transport-level exception. -/
def devWriteRaises : Device :=
  { readInput := fun _ => .errorReply, readHolding := fun _ => .errorReply,
    write := fun _ _ => .raises }

/-- A device whose write calls are answered with a protocol-level error
reply. -/
def devWriteErrReply : Device :=
  { readInput := fun _ => .errorReply, readHolding := fun _ => .errorReply,
    write := fun _ _ => .errorReply }

/-- A cached snapshot in which `modbus_control` reads 0. -/
def dataMode0 : Option (List (String × ℚ)) := some [("modbus_control", 0)]

/-- Whether an event is a device write on the link. -/
def isDevWrite : Ev → Bool
  | .devWrite _ _ => true
  | _ => false

-- Generic lemmas about the reading loop.

theorem readRow_of_ok (read : Nat → ReadOutcome) (val : RegConfig → Nat → ℚ)
    (p : String × RegConfig) (w : Nat) (hw : read p.2.address = .ok w) :
    readRow read val p = some (p.1, val p.2 w) := by
  simp [readRow, hw]

theorem readRow_of_fail (read : Nat → ReadOutcome) (val : RegConfig → Nat → ℚ)
    (p : String × RegConfig) (hw : readOk read p = false) :
    readRow read val p = none := by
  unfold readRow readOk at *
  cases h : read p.2.address <;> simp [h] at hw ⊢

theorem readRow_cases (read : Nat → ReadOutcome) (val : RegConfig → Nat → ℚ)
    (p : String × RegConfig) :
    (∃ w, read p.2.address = .ok w ∧ readOk read p = true
        ∧ readRow read val p = some (p.1, val p.2 w))
    ∨ (readOk read p = false ∧ readRow read val p = none) := by
  unfold readRow readOk
  cases h : read p.2.address with
  | ok w => exact Or.inl ⟨w, rfl, rfl, rfl⟩
  | errorReply => exact Or.inr ⟨rfl, rfl⟩
  | raises => exact Or.inr ⟨rfl, rfl⟩

theorem regReadLoop_eq (read : Nat → ReadOutcome) (val : RegConfig → Nat → ℚ)
    (regs : List (String × RegConfig)) (acc : List (String × ℚ)) :
    regReadLoop read val regs acc = acc ++ regs.filterMap (readRow read val) := by
  induction regs generalizing acc with
  | nil => simp [regReadLoop]
  | cons p rest ih =>
    unfold regReadLoop
    rcases readRow_cases read val p with ⟨w, hw, _, hrow⟩ | ⟨hfail, hrow⟩
    · rw [hw]
      dsimp only
      rw [ih (acc ++ [(p.1, val p.2 w)])]
      rw [List.filterMap_cons, hrow]
      simp
    · have : ∀ acc', (match read p.2.address with
          | .ok w => regReadLoop read val rest (acc' ++ [(p.1, val p.2 w)])
          | _ => regReadLoop read val rest acc') = regReadLoop read val rest acc' := by
        intro acc'
        unfold readOk at hfail
        cases h : read p.2.address <;> simp [h] at hfail ⊢
      rw [this, ih, List.filterMap_cons, hrow]

theorem keys_filterMap_readRow (read : Nat → ReadOutcome) (val : RegConfig → Nat → ℚ)
    (regs : List (String × RegConfig)) :
    (regs.filterMap (readRow read val)).map Prod.fst
      = (regs.filter (readOk read)).map Prod.fst := by
  induction regs with
  | nil => simp
  | cons p rest ih =>
    rcases readRow_cases read val p with ⟨w, _, hok, hrow⟩ | ⟨hfail, hrow⟩
    · rw [List.filterMap_cons, hrow, List.filter_cons, hok]
      simpa using ih
    · rw [List.filterMap_cons, hrow, List.filter_cons, hfail]
      simpa using ih

theorem snapGet_append (l₁ l₂ : List (String × ℚ)) (k : String) :
    snapGet (l₁ ++ l₂) k
      = match snapGet l₁ k with
        | some v => some v
        | none => snapGet l₂ k := by
  induction l₁ with
  | nil => simp [snapGet]
  | cons p rest ih =>
    by_cases h : p.1 = k <;> simp [snapGet, h, ih]

theorem snapGet_none_of_not_mem (l : List (String × ℚ)) (k : String)
    (h : k ∉ l.map Prod.fst) : snapGet l k = none := by
  induction l with
  | nil => rfl
  | cons p rest ih =>
    simp only [List.map_cons, List.mem_cons, not_or] at h
    simp only [snapGet]
    rw [if_neg (fun hh => h.1 hh.symm)]
    exact ih h.2

theorem snapGet_filterMap_of_ok (read : Nat → ReadOutcome) (val : RegConfig → Nat → ℚ)
    (regs : List (String × RegConfig)) (hnd : (regs.map Prod.fst).Nodup)
    (p : String × RegConfig) (hp : p ∈ regs) (w : Nat)
    (hw : read p.2.address = .ok w) :
    snapGet (regs.filterMap (readRow read val)) p.1 = some (val p.2 w) := by
  induction regs with
  | nil => cases hp
  | cons q rest ih =>
    simp only [List.map_cons, List.nodup_cons] at hnd
    rcases List.mem_cons.mp hp with h | h
    · subst h
      rw [List.filterMap_cons, readRow_of_ok read val p w hw]
      simp [snapGet]
    · have hne : q.1 ≠ p.1 := by
        intro he
        exact hnd.1 (he ▸ List.mem_map_of_mem Prod.fst h)
      rcases readRow_cases read val q with ⟨w', _, _, hrow⟩ | ⟨_, hrow⟩
      · rw [List.filterMap_cons, hrow]
        simp only [snapGet]
        rw [if_neg hne]
        exact ih hnd.2 h
      · rw [List.filterMap_cons, hrow]
        exact ih hnd.2 h

theorem snapGet_filterMap_of_fail (read : Nat → ReadOutcome) (val : RegConfig → Nat → ℚ)
    (regs : List (String × RegConfig)) (hnd : (regs.map Prod.fst).Nodup)
    (p : String × RegConfig) (hp : p ∈ regs)
    (hw : readOk read p = false) :
    snapGet (regs.filterMap (readRow read val)) p.1 = none := by
  induction regs with
  | nil => cases hp
  | cons q rest ih =>
    simp only [List.map_cons, List.nodup_cons] at hnd
    rcases List.mem_cons.mp hp with h | h
    · subst h
      rw [List.filterMap_cons, readRow_of_fail read val p hw]
      apply snapGet_none_of_not_mem
      rw [keys_filterMap_readRow]
      intro hmem
      rcases List.mem_map.mp hmem with ⟨q, hq, hqe⟩
      exact hnd.1 (hqe ▸ List.mem_map_of_mem Prod.fst (List.mem_of_mem_filter hq))
    · have hne : q.1 ≠ p.1 := by
        intro he
        exact hnd.1 (he ▸ List.mem_map_of_mem Prod.fst h)
      rcases readRow_cases read val q with ⟨w', _, _, hrow⟩ | ⟨_, hrow⟩
      · rw [List.filterMap_cons, hrow]
        simp only [snapGet]
        rw [if_neg hne]
        exact ih hnd.2 h
      · rw [List.filterMap_cons, hrow]
        exact ih hnd.2 h

-- Concrete facts about the program's catalog, settled by evaluation.

theorem input_keys_nodup : (INPUT_REGISTERS.map Prod.fst).Nodup := by decide

theorem setting_keys_nodup : (setting_registers.map Prod.fst).Nodup := by decide

theorem input_setting_disjoint :
    ∀ k ∈ INPUT_REGISTERS.map Prod.fst, k ∉ setting_registers.map Prod.fst := by decide

theorem setting_no_scale : ∀ p ∈ setting_registers, p.2.scale = none := by decide

/-- For the holding registers the poll cycle reads, the raw stored value is
already the correctly scaled value: none of them declares a scale. -/
theorem rawValue_eq_scaleValue_on_setting (p : String × RegConfig)
    (hp : p ∈ setting_registers) (w : Nat) : rawValue p.2 w = scaleValue p.2 w := by
  rw [scaleValue, setting_no_scale p hp]
  rfl

theorem twoPass_eq (read₁ val₁ regs₁ read₂ val₂ regs₂) :
    twoPass read₁ val₁ regs₁ read₂ val₂ regs₂
      = regs₁.filterMap (readRow read₁ val₁) ++ regs₂.filterMap (readRow read₂ val₂) := by
  unfold twoPass
  rw [regReadLoop_eq, regReadLoop_eq]
  simp

theorem twoPass_keys (read₁ val₁ regs₁ read₂ val₂ regs₂) :
    (twoPass read₁ val₁ regs₁ read₂ val₂ regs₂).map Prod.fst
      = (regs₁.filter (readOk read₁)).map Prod.fst
        ++ (regs₂.filter (readOk read₂)).map Prod.fst := by
  rw [twoPass_eq, List.map_append, keys_filterMap_readRow, keys_filterMap_readRow]

theorem twoPass_get_first_ok (read₁ val₁ regs₁ read₂ val₂ regs₂)
    (hnd : (regs₁.map Prod.fst).Nodup)
    (p : String × RegConfig) (hp : p ∈ regs₁) (w : Nat)
    (hw : read₁ p.2.address = .ok w) :
    snapGet (twoPass read₁ val₁ regs₁ read₂ val₂ regs₂) p.1 = some (val₁ p.2 w) := by
  rw [twoPass_eq, snapGet_append,
    snapGet_filterMap_of_ok read₁ val₁ regs₁ hnd p hp w hw]

theorem twoPass_get_second_ok (read₁ val₁ regs₁ read₂ val₂ regs₂)
    (hnd : (regs₂.map Prod.fst).Nodup)
    (hdisj : ∀ k ∈ regs₁.map Prod.fst, k ∉ regs₂.map Prod.fst)
    (p : String × RegConfig) (hp : p ∈ regs₂) (w : Nat)
    (hw : read₂ p.2.address = .ok w) :
    snapGet (twoPass read₁ val₁ regs₁ read₂ val₂ regs₂) p.1 = some (val₂ p.2 w) := by
  have hmem₂ : p.1 ∈ regs₂.map Prod.fst := List.mem_map_of_mem Prod.fst hp
  have hnot₁ : p.1 ∉ regs₁.map Prod.fst := fun h => hdisj p.1 h hmem₂
  have h₁ : snapGet (regs₁.filterMap (readRow read₁ val₁)) p.1 = none := by
    apply snapGet_none_of_not_mem
    rw [keys_filterMap_readRow]
    intro hmem
    rcases List.mem_map.mp hmem with ⟨q, hq, hqe⟩
    exact hnot₁ (hqe ▸ List.mem_map_of_mem Prod.fst (List.mem_of_mem_filter hq))
  rw [twoPass_eq, snapGet_append, h₁,
    snapGet_filterMap_of_ok read₂ val₂ regs₂ hnd p hp w hw]

theorem twoPass_get_first_fail (read₁ val₁ regs₁ read₂ val₂ regs₂)
    (hnd : (regs₁.map Prod.fst).Nodup)
    (hdisj : ∀ k ∈ regs₁.map Prod.fst, k ∉ regs₂.map Prod.fst)
    (p : String × RegConfig) (hp : p ∈ regs₁)
    (hw : readOk read₁ p = false) :
    snapGet (twoPass read₁ val₁ regs₁ read₂ val₂ regs₂) p.1 = none := by
  have hmem₁ : p.1 ∈ regs₁.map Prod.fst := List.mem_map_of_mem Prod.fst hp
  have h₂ : snapGet (regs₂.filterMap (readRow read₂ val₂)) p.1 = none := by
    apply snapGet_none_of_not_mem
    rw [keys_filterMap_readRow]
    intro hmem
    rcases List.mem_map.mp hmem with ⟨q, hq, hqe⟩
    exact hdisj p.1 hmem₁ (hqe ▸ List.mem_map_of_mem Prod.fst (List.mem_of_mem_filter hq))
  rw [twoPass_eq, snapGet_append,
    snapGet_filterMap_of_fail read₁ val₁ regs₁ hnd p hp hw, h₂]

theorem twoPass_get_second_fail (read₁ val₁ regs₁ read₂ val₂ regs₂)
    (hnd : (regs₂.map Prod.fst).Nodup)
    (hdisj : ∀ k ∈ regs₁.map Prod.fst, k ∉ regs₂.map Prod.fst)
    (p : String × RegConfig) (hp : p ∈ regs₂)
    (hw : readOk read₂ p = false) :
    snapGet (twoPass read₁ val₁ regs₁ read₂ val₂ regs₂) p.1 = none := by
  have hmem₂ : p.1 ∈ regs₂.map Prod.fst := List.mem_map_of_mem Prod.fst hp
  have hnot₁ : p.1 ∉ regs₁.map Prod.fst := fun h => hdisj p.1 h hmem₂
  have h₁ : snapGet (regs₁.filterMap (readRow read₁ val₁)) p.1 = none := by
    apply snapGet_none_of_not_mem
    rw [keys_filterMap_readRow]
    intro hmem
    rcases List.mem_map.mp hmem with ⟨q, hq, hqe⟩
    exact hnot₁ (hqe ▸ List.mem_map_of_mem Prod.fst (List.mem_of_mem_filter hq))
  rw [twoPass_eq, snapGet_append, h₁,
    snapGet_filterMap_of_fail read₂ val₂ regs₂ hnd p hp hw]

theorem updateBody_twoPass (dev : Device) :
    updateBody dev
      = twoPass dev.readInput scaleValue INPUT_REGISTERS
          dev.readHolding rawValue setting_registers := rfl

theorem readAllBody_twoPass (dev : Device) :
    readAllBody dev
      = twoPass dev.readInput scaleValue inputRegistersPrefixed
          dev.readHolding rawValue holdingRegistersPrefixed := rfl


/-- C1: partial failure isolation of a poll cycle.  For the program's
catalog (all input registers plus the fixed subset of holding registers
backing writable controls) and any pattern of per-register read failures
(error reply or exception), `_async_update_data` on a connected client
returns a snapshot whose keys are exactly the catalog keys whose reads
succeeded — in catalog order — with every surviving key mapped to its
correctly scaled value and every failing key omitted; no failure aborts the
cycle. -/
theorem C1_poll_cycle_isolation (c : Client) (dev : Device)
    (h : c.connected = true) :
    ∃ d, async_update_data c dev = .ok d
      ∧ d.map Prod.fst
          = (INPUT_REGISTERS.filter (readOk dev.readInput)).map Prod.fst
            ++ (setting_registers.filter (readOk dev.readHolding)).map Prod.fst
      ∧ (∀ p ∈ INPUT_REGISTERS, ∀ w, dev.readInput p.2.address = .ok w →
            snapGet d p.1 = some (scaleValue p.2 w))
      ∧ (∀ p ∈ setting_registers, ∀ w, dev.readHolding p.2.address = .ok w →
            snapGet d p.1 = some (scaleValue p.2 w))
      ∧ (∀ p ∈ INPUT_REGISTERS, readOk dev.readInput p = false →
            snapGet d p.1 = none)
      ∧ (∀ p ∈ setting_registers, readOk dev.readHolding p = false →
            snapGet d p.1 = none) := by
  refine ⟨updateBody dev, by simp [async_update_data, h], ?_, ?_, ?_, ?_, ?_⟩
  · rw [updateBody_twoPass, twoPass_keys]
  · intro p hp w hw
    rw [updateBody_twoPass]
    exact twoPass_get_first_ok _ _ _ _ _ _ input_keys_nodup p hp w hw
  · intro p hp w hw
    rw [updateBody_twoPass, ← rawValue_eq_scaleValue_on_setting p hp w]
    exact twoPass_get_second_ok _ _ _ _ _ _ setting_keys_nodup
      input_setting_disjoint p hp w hw
  · intro p hp hfail
    rw [updateBody_twoPass]
    exact twoPass_get_first_fail _ _ _ _ _ _ input_keys_nodup
      input_setting_disjoint p hp hfail
  · intro p hp hfail
    rw [updateBody_twoPass]
    exact twoPass_get_second_fail _ _ _ _ _ _ setting_keys_nodup
      input_setting_disjoint p hp hfail

/-- Witness for C1 at a concrete connected client and a concrete device. -/
theorem C1_poll_cycle_isolation_witness :
    ∃ d, async_update_data connectedClient devAllOk = .ok d
      ∧ d.map Prod.fst
          = (INPUT_REGISTERS.filter (readOk devAllOk.readInput)).map Prod.fst
            ++ (setting_registers.filter (readOk devAllOk.readHolding)).map Prod.fst
      ∧ (∀ p ∈ INPUT_REGISTERS, ∀ w, devAllOk.readInput p.2.address = .ok w →
            snapGet d p.1 = some (scaleValue p.2 w))
      ∧ (∀ p ∈ setting_registers, ∀ w, devAllOk.readHolding p.2.address = .ok w →
            snapGet d p.1 = some (scaleValue p.2 w))
      ∧ (∀ p ∈ INPUT_REGISTERS, readOk devAllOk.readInput p = false →
            snapGet d p.1 = none)
      ∧ (∀ p ∈ setting_registers, readOk devAllOk.readHolding p = false →
            snapGet d p.1 = none) :=
  C1_poll_cycle_isolation connectedClient devAllOk rfl

/-- C6: scale correctness.  Every successfully read input register with raw
word `w` is stored as exactly `w * s` when its descriptor declares scale `s`
(scale applied exactly once, over exact rationals), and as the unmodified
integer `w` when it declares none. -/
theorem C6_scale_correctness (c : Client) (dev : Device) (h : c.connected = true)
    (p : String × RegConfig) (hp : p ∈ INPUT_REGISTERS) (w : Nat)
    (hw : dev.readInput p.2.address = .ok w) :
    ∃ d, async_update_data c dev = .ok d
      ∧ snapGet d p.1 = some (scaleValue p.2 w)
      ∧ (∀ s, p.2.scale = some s → snapGet d p.1 = some ((w : ℚ) * s))
      ∧ (p.2.scale = none → snapGet d p.1 = some (w : ℚ)) := by
  refine ⟨updateBody dev, by simp [async_update_data, h], ?_, ?_, ?_⟩
  · rw [updateBody_twoPass]
    exact twoPass_get_first_ok _ _ _ _ _ _ input_keys_nodup p hp w hw
  · intro s hs
    rw [updateBody_twoPass,
      twoPass_get_first_ok _ _ _ _ _ _ input_keys_nodup p hp w hw]
    rw [scaleValue, hs]
  · intro hs
    rw [updateBody_twoPass,
      twoPass_get_first_ok _ _ _ _ _ _ input_keys_nodup p hp w hw]
    rw [scaleValue, hs]

/-- Witness for C6: `supply_pressure` raw word 153 with scale 0.1 lands in
the snapshot as exactly 153 * 1/10 = 15.3. -/
theorem C6_scale_correctness_witness :
    ∃ d, async_update_data connectedClient dev153 = .ok d
      ∧ snapGet d "supply_pressure" = some ((153 : ℚ) * (1 / 10))
      ∧ ((153 : ℚ) * (1 / 10)) = 153 / 10 := by
  obtain ⟨d, hd, -, hs, -⟩ := C6_scale_correctness connectedClient dev153 rfl
    ("supply_pressure", { address := 4023, dataType := "int16", scale := some (1/10) })
    (by unfold INPUT_REGISTERS; exact .tail _ (.tail _ (.tail _ (.tail _ (.head _)))))
    153 rfl
  exact ⟨d, hd, hs (1/10) rfl, by norm_num⟩

/-- C7: cycle failure policy.  A disconnected client whose reconnect attempt
raises makes the whole cycle fail as `UpdateFailed` (a `ConnectionException`
specifically is surfaced as the connection-error variant), while a connected
client always yields a snapshot — a partial-success cycle whose keys are the
successfully read catalog entries — regardless of how many individual reads
fail. -/
theorem C7_cycle_failure_policy :
    (∀ (c : Client) (dev : Device), c.connected = false →
        c.connect ≠ ConnectResult.ok →
        ∃ e, async_update_data c dev = .error e)
    ∧ (∀ (c : Client) (dev : Device), c.connected = false →
        c.connect = ConnectResult.raiseConn →
        async_update_data c dev = .error UpdateError.connectionError)
    ∧ (∀ (c : Client) (dev : Device), c.connected = true →
        ∃ d, async_update_data c dev = .ok d
          ∧ d.map Prod.fst
              = (INPUT_REGISTERS.filter (readOk dev.readInput)).map Prod.fst
                ++ (setting_registers.filter (readOk dev.readHolding)).map Prod.fst) := by
  refine ⟨?_, ?_, ?_⟩
  · intro c dev hc hf
    cases hcc : c.connect with
    | ok => exact absurd hcc hf
    | raiseConn => exact ⟨.connectionError, by simp [async_update_data, hc, hcc]⟩
    | raiseModbus => exact ⟨.modbusError, by simp [async_update_data, hc, hcc]⟩
    | raiseOther => exact ⟨.unexpectedError, by simp [async_update_data, hc, hcc]⟩
  · intro c dev hc hcc
    simp [async_update_data, hc, hcc]
  · intro c dev hc
    exact ⟨updateBody dev, by simp [async_update_data, hc],
      by rw [updateBody_twoPass, twoPass_keys]⟩

/-- Witness for C7: the concrete down client fails the cycle with the
connection-error variant; the concrete connected client yields a snapshot. -/
theorem C7_cycle_failure_policy_witness :
    async_update_data downClient devAllOk = .error UpdateError.connectionError
    ∧ ∃ d, async_update_data connectedClient devAllOk = .ok d
        ∧ d.map Prod.fst
            = (INPUT_REGISTERS.filter (readOk devAllOk.readInput)).map Prod.fst
              ++ (setting_registers.filter (readOk devAllOk.readHolding)).map Prod.fst :=
  ⟨C7_cycle_failure_policy.2.1 downClient devAllOk rfl rfl,
    C7_cycle_failure_policy.2.2 connectedClient devAllOk rfl⟩

theorem inputPrefixed_keys_nodup : (inputRegistersPrefixed.map Prod.fst).Nodup := by decide

theorem holdingPrefixed_keys_nodup : (holdingRegistersPrefixed.map Prod.fst).Nodup := by decide

theorem prefixed_keys_disjoint :
    ∀ k ∈ inputRegistersPrefixed.map Prod.fst,
      k ∉ holdingRegistersPrefixed.map Prod.fst := by decide

/-- C3 (code bug): the catalog declares `supply_imbalance_offset` as data
type `int16` with range [-15, 15], yet `_async_update_data` stores the raw
register word unconverted: the device word 0xFFFF = 65535 (the two's
complement encoding of -1) lands in the snapshot as 65535, not as the
negative value 65535 - 65536 = -1.  No code path of the integration performs
a signed 16-bit interpretation. -/
theorem C3_int16_not_sign_extended :
    (∃ cfg, ("supply_imbalance_offset", cfg) ∈ HOLDING_REGISTERS
        ∧ cfg.dataType = "int16" ∧ cfg.minV = some (-15) ∧ cfg.maxV = some 15)
    ∧ ∃ d, async_update_data connectedClient dev65535 = .ok d
        ∧ snapGet d "supply_imbalance_offset" = some (65535 : ℚ)
        ∧ some (65535 : ℚ) ≠ some ((65535 : ℚ) - 65536) := by
  constructor
  · exact ⟨{ address := 6035, dataType := "int16", minV := some (-15), maxV := some 15 },
      by decide, rfl, rfl, rfl⟩
  refine ⟨updateBody dev65535, rfl, ?_, by norm_num⟩
  have h := twoPass_get_second_ok dev65535.readInput scaleValue INPUT_REGISTERS
      dev65535.readHolding rawValue setting_registers
      setting_keys_nodup input_setting_disjoint
      ("supply_imbalance_offset", { address := 6035, dataType := "int16", minV := some (-15), maxV := some 15 })
      (by decide) 65535 rfl
  rw [updateBody_twoPass]
  simpa [rawValue] using h

/-- C9 counterexample: `async_read_all_registers` does not return raw
(unscaled) register words for the input bank.  With `supply_pressure`
(scale 0.1) reading raw word 153, the dump maps `input_supply_pressure` to
153 * 1/10 = 15.3, not to the raw 153 the claim requires. -/
theorem C9_read_all_not_raw_counterexample :
    snapGet (async_read_all_registers connectedClient dev153) "input_supply_pressure"
      = some ((153 : ℚ) * (1 / 10))
    ∧ ((153 : ℚ) * (1 / 10)) ≠ (153 : ℚ) := by
  constructor
  · have h := twoPass_get_first_ok dev153.readInput scaleValue inputRegistersPrefixed
        dev153.readHolding rawValue holdingRegistersPrefixed
        inputPrefixed_keys_nodup
        ("input_supply_pressure", { address := 4023, dataType := "int16", scale := some (1/10) })
        (by unfold inputRegistersPrefixed INPUT_REGISTERS
            dsimp only [List.map]
            exact .tail _ (.tail _ (.tail _ (.tail _ (.head _)))))
        153 rfl
    have he : async_read_all_registers connectedClient dev153 = readAllBody dev153 := rfl
    rw [he, readAllBody_twoPass]
    simpa [scaleValue] using h
  · norm_num

/-- C9 (amended): `async_read_all_registers` performs a fresh full read pass
over every input and every holding register — independent of the cached
snapshot, which it never consults — and returns the catalog keys prefixed by
their bank, omitting keys whose reads failed; input-bank values carry the
descriptor's scale applied (exactly as the poll path stores them), while
holding-bank values are the raw register words. -/
theorem C9_read_all_amended (c : Client) (dev : Device) (h : c.connected = true) :
    (async_read_all_registers c dev).map Prod.fst
        = (inputRegistersPrefixed.filter (readOk dev.readInput)).map Prod.fst
          ++ (holdingRegistersPrefixed.filter (readOk dev.readHolding)).map Prod.fst
    ∧ (∀ p ∈ inputRegistersPrefixed, ∀ w, dev.readInput p.2.address = .ok w →
        snapGet (async_read_all_registers c dev) p.1 = some (scaleValue p.2 w))
    ∧ (∀ p ∈ holdingRegistersPrefixed, ∀ w, dev.readHolding p.2.address = .ok w →
        snapGet (async_read_all_registers c dev) p.1 = some (rawValue p.2 w))
    ∧ (∀ p ∈ inputRegistersPrefixed, readOk dev.readInput p = false →
        snapGet (async_read_all_registers c dev) p.1 = none)
    ∧ (∀ p ∈ holdingRegistersPrefixed, readOk dev.readHolding p = false →
        snapGet (async_read_all_registers c dev) p.1 = none) := by
  have he : async_read_all_registers c dev = readAllBody dev := by
    simp [async_read_all_registers, h]
  rw [he, readAllBody_twoPass]
  refine ⟨twoPass_keys _ _ _ _ _ _, ?_, ?_, ?_, ?_⟩
  · intro p hp w hw
    exact twoPass_get_first_ok _ _ _ _ _ _ inputPrefixed_keys_nodup p hp w hw
  · intro p hp w hw
    exact twoPass_get_second_ok _ _ _ _ _ _ holdingPrefixed_keys_nodup
      prefixed_keys_disjoint p hp w hw
  · intro p hp hfail
    exact twoPass_get_first_fail _ _ _ _ _ _ inputPrefixed_keys_nodup
      prefixed_keys_disjoint p hp hfail
  · intro p hp hfail
    exact twoPass_get_second_fail _ _ _ _ _ _ holdingPrefixed_keys_nodup
      prefixed_keys_disjoint p hp hfail

/-- Witness for the amended C9 at a concrete connected client and device. -/
theorem C9_read_all_amended_witness :
    (async_read_all_registers connectedClient devAllOk).map Prod.fst
        = (inputRegistersPrefixed.filter (readOk devAllOk.readInput)).map Prod.fst
          ++ (holdingRegistersPrefixed.filter (readOk devAllOk.readHolding)).map Prod.fst
    ∧ (∀ p ∈ inputRegistersPrefixed, ∀ w, devAllOk.readInput p.2.address = .ok w →
        snapGet (async_read_all_registers connectedClient devAllOk) p.1 = some (scaleValue p.2 w))
    ∧ (∀ p ∈ holdingRegistersPrefixed, ∀ w, devAllOk.readHolding p.2.address = .ok w →
        snapGet (async_read_all_registers connectedClient devAllOk) p.1 = some (rawValue p.2 w))
    ∧ (∀ p ∈ inputRegistersPrefixed, readOk devAllOk.readInput p = false →
        snapGet (async_read_all_registers connectedClient devAllOk) p.1 = none)
    ∧ (∀ p ∈ holdingRegistersPrefixed, readOk devAllOk.readHolding p = false →
        snapGet (async_read_all_registers connectedClient devAllOk) p.1 = none) :=
  C9_read_all_amended connectedClient devAllOk rfl

theorem awr_spec (c : Client) (dev : Device) (addr : Nat) (v : Int) :
    async_write_register c dev addr v
      = if c.connected = false ∧ c.connect ≠ ConnectResult.ok then (false, [])
        else match dev.write addr v with
          | .ok => (true, [.devWrite addr v, .refresh])
          | .errorReply => (false, [.devWrite addr v])
          | .raises => (false, [.devWrite addr v]) := by
  unfold async_write_register write_register_try
  by_cases h : c.connected = false ∧ c.connect ≠ ConnectResult.ok
  · rw [if_pos h, if_pos h]
  · rw [if_neg h, if_neg h]
    cases dev.write addr v <;> rfl

theorem awr_conn_ok (c : Client) (dev : Device) (addr : Nat) (v : Int)
    (hc : c.connected = true) :
    async_write_register c dev addr v
      = match dev.write addr v with
        | .ok => (true, [.devWrite addr v, .refresh])
        | .errorReply => (false, [.devWrite addr v])
        | .raises => (false, [.devWrite addr v]) := by
  rw [awr_spec, if_neg]
  simp [hc]

theorem awr_of_true (c : Client) (dev : Device) (addr : Nat) (v : Int)
    (h : (async_write_register c dev addr v).1 = true) :
    async_write_register c dev addr v = (true, [Ev.devWrite addr v, Ev.refresh]) := by
  rw [awr_spec] at h ⊢
  by_cases hcc : c.connected = false ∧ c.connect ≠ ConnectResult.ok
  · rw [if_pos hcc] at h
    cases h
  · rw [if_neg hcc] at h ⊢
    cases hw : dev.write addr v <;> rw [hw] at h <;> first | rfl | cases h

theorem awr_trace_mem (c : Client) (dev : Device) (addr : Nat) (v : Int)
    (e : Ev) (he : e ∈ (async_write_register c dev addr v).2) :
    e = Ev.devWrite addr v ∨ e = Ev.refresh := by
  rw [awr_spec] at he
  by_cases hcc : c.connected = false ∧ c.connect ≠ ConnectResult.ok
  · rw [if_pos hcc] at he
    cases he
  · rw [if_neg hcc] at he
    cases hw : dev.write addr v <;> rw [hw] at he <;> simp at he <;> tauto

theorem awr_true_iff (c : Client) (dev : Device) (addr : Nat) (v : Int) :
    (async_write_register c dev addr v).1 = true
      ↔ ((c.connected = true ∨ c.connect = ConnectResult.ok)
          ∧ dev.write addr v = .ok) := by
  rcases c with ⟨conn, cr⟩
  cases conn <;> cases cr <;> cases hw : dev.write addr v <;>
    simp [awr_spec, hw]

theorem awr_false_iff (c : Client) (dev : Device) (addr : Nat) (v : Int) :
    (async_write_register c dev addr v).1 = false
      ↔ ((c.connected = false ∧ c.connect ≠ ConnectResult.ok)
          ∨ dev.write addr v = .errorReply ∨ dev.write addr v = .raises) := by
  rcases c with ⟨conn, cr⟩
  cases conn <;> cases cr <;> cases hw : dev.write addr v <;>
    simp [awr_spec, hw]

/-- C8 counterexample: with a connected client and a device whose write call
raises a transport-level exception, the `try` body of
`async_write_register` does end in an exception, but the function catches it
and returns `false` to the caller instead of letting it surface — refuting
the claim that transport-level failures surface as exceptions rather than as
a false return. -/
theorem C8_transport_exception_counterexample :
    (write_register_try connectedClient devWriteRaises 8002 200).1 = .error ()
    ∧ (async_write_register connectedClient devWriteRaises 8002 200).1 = false
    ∧ devWriteRaises.write 8002 200 ≠ WriteOutcome.errorReply := by
  refine ⟨rfl, rfl, ?_⟩
  intro h
  cases h

/-- C8 (amended): `async_write_register` never lets an exception reach its
caller; it returns `true` exactly when the link is usable (already connected,
or the reconnect succeeds) and the device acknowledges the write, and returns
`false` both on a protocol-level error reply and on any transport-level
failure (raised exception or failed reconnect). -/
theorem C8_write_error_contract_amended (c : Client) (dev : Device)
    (addr : Nat) (v : Int) :
    ((async_write_register c dev addr v).1 = true
      ↔ ((c.connected = true ∨ c.connect = ConnectResult.ok)
          ∧ dev.write addr v = .ok))
    ∧ ((async_write_register c dev addr v).1 = false
      ↔ ((c.connected = false ∧ c.connect ≠ ConnectResult.ok)
          ∨ dev.write addr v = .errorReply ∨ dev.write addr v = .raises)) :=
  ⟨awr_true_iff c dev addr v, awr_false_iff c dev addr v⟩

theorem guardShape_modeFail (c : Client) (dev : Device) (modeVal : Int)
    (targetAddr : Nat) (targetVal : Int)
    (h : (async_write_register c dev (holdingAddress "modbus_control") modeVal).1 = false) :
    guardShape c dev modeVal targetAddr targetVal
      = (.modeWriteFailed,
        (async_write_register c dev (holdingAddress "modbus_control") modeVal).2) := by
  unfold guardShape
  rw [if_pos h]

theorem guardShape_modeOk (c : Client) (dev : Device) (modeVal : Int)
    (targetAddr : Nat) (targetVal : Int) (hc : c.connected = true)
    (hM : dev.write (holdingAddress "modbus_control") modeVal = .ok) :
    guardShape c dev modeVal targetAddr targetVal
      = (if dev.write targetAddr targetVal = .ok then SetOutcome.success
          else SetOutcome.targetWriteFailed,
        [Ev.devWrite (holdingAddress "modbus_control") modeVal, Ev.refresh,
          Ev.sleep 500, Ev.devWrite targetAddr targetVal]
          ++ if dev.write targetAddr targetVal = .ok then [Ev.refresh] else []) := by
  have h1 : async_write_register c dev (holdingAddress "modbus_control") modeVal
      = (true, [Ev.devWrite (holdingAddress "modbus_control") modeVal, Ev.refresh]) := by
    rw [awr_conn_ok c dev _ modeVal hc, hM]
  unfold guardShape
  rw [h1, awr_conn_ok c dev targetAddr targetVal hc]
  cases hT : dev.write targetAddr targetVal <;> simp [hT]

theorem guardShape_no_target_of_modeFail (c : Client) (dev : Device)
    (modeVal : Int) (targetAddr : Nat) (targetVal : Int)
    (hne : targetAddr ≠ holdingAddress "modbus_control")
    (h : (async_write_register c dev (holdingAddress "modbus_control") modeVal).1 = false) :
    ∀ v', Ev.devWrite targetAddr v' ∉ (guardShape c dev modeVal targetAddr targetVal).2 := by
  intro v' hmem
  rw [guardShape_modeFail c dev modeVal targetAddr targetVal h] at hmem
  rcases awr_trace_mem c dev (holdingAddress "modbus_control") modeVal _ hmem with he | he
  · exact hne (by injection he with h1 h2)
  · cases he

theorem guardShape_take3_of_modeTrue (c : Client) (dev : Device) (modeVal : Int)
    (targetAddr : Nat) (targetVal : Int)
    (h : (async_write_register c dev (holdingAddress "modbus_control") modeVal).1 = true) :
    (guardShape c dev modeVal targetAddr targetVal).2.take 3
      = [Ev.devWrite (holdingAddress "modbus_control") modeVal, Ev.refresh,
          Ev.sleep 500] := by
  have h1 := awr_of_true c dev (holdingAddress "modbus_control") modeVal h
  unfold guardShape
  rw [h1]
  simp

theorem flowSetpoint_eq_guard (c : Client) (dev : Device)
    (data : Option (List (String × ℚ))) (value : ℚ)
    (hmode : modeOf data ≠ some 2) :
    flowSetpoint_set_native_value c dev data value
      = guardShape c dev 2 (holdingAddress "flow_setpoint") (pyInt value) := by
  unfold flowSetpoint_set_native_value guardShape
  rw [if_pos hmode]

theorem powerSwitch_eq_guard (c : Client) (dev : Device)
    (data : Option (List (String × ℚ))) (o : String) (sv : Nat)
    (ho : optionToValue POWER_SWITCH_MAP o = some sv)
    (hmode : modeOf data ≠ some 1) :
    powerSwitch_select_option c dev data o
      = guardShape c dev 1 (holdingAddress "power_switch_position") (sv : Int) := by
  unfold powerSwitch_select_option guardShape
  rw [ho]
  dsimp only
  rw [if_pos hmode]

/-- C4: guarded write ordering.  For both guarded writes (flow setpoint with
required mode 2, power switch with required mode 1): whenever the cached
`modbus_control` value differs from the required mode and the mode write is
accepted over a usable link, the operation's trace is exactly mode write,
refresh, the fixed 0.5 s settle sleep, then the target write — so exactly two
device writes in that order with the delay between them; and in every run
(any device behaviour) a target write appearing in the trace implies the
mode write returned success and the trace starts with the mode write,
refresh and the sleep. -/
theorem C4_guarded_write_ordering :
    (∀ (c : Client) (dev : Device) (data : Option (List (String × ℚ))) (value : ℚ),
      modeOf data ≠ some 2 → c.connected = true →
      dev.write (holdingAddress "modbus_control") 2 = .ok →
      (flowSetpoint_set_native_value c dev data value).2
        = [Ev.devWrite (holdingAddress "modbus_control") 2, Ev.refresh, Ev.sleep 500,
            Ev.devWrite (holdingAddress "flow_setpoint") (pyInt value)]
          ++ (if dev.write (holdingAddress "flow_setpoint") (pyInt value) = .ok
              then [Ev.refresh] else [])
      ∧ ((flowSetpoint_set_native_value c dev data value).2.filter isDevWrite)
          = [Ev.devWrite (holdingAddress "modbus_control") 2,
             Ev.devWrite (holdingAddress "flow_setpoint") (pyInt value)])
    ∧ (∀ (c : Client) (dev : Device) (data : Option (List (String × ℚ))) (value : ℚ),
        modeOf data ≠ some 2 →
        ∀ v', Ev.devWrite (holdingAddress "flow_setpoint") v'
            ∈ (flowSetpoint_set_native_value c dev data value).2 →
          (async_write_register c dev (holdingAddress "modbus_control") 2).1 = true
          ∧ (flowSetpoint_set_native_value c dev data value).2.take 3
              = [Ev.devWrite (holdingAddress "modbus_control") 2, Ev.refresh,
                 Ev.sleep 500])
    ∧ (∀ (c : Client) (dev : Device) (data : Option (List (String × ℚ)))
          (o : String) (sv : Nat),
        optionToValue POWER_SWITCH_MAP o = some sv →
        modeOf data ≠ some 1 → c.connected = true →
        dev.write (holdingAddress "modbus_control") 1 = .ok →
        (powerSwitch_select_option c dev data o).2
          = [Ev.devWrite (holdingAddress "modbus_control") 1, Ev.refresh, Ev.sleep 500,
              Ev.devWrite (holdingAddress "power_switch_position") (sv : Int)]
            ++ (if dev.write (holdingAddress "power_switch_position") (sv : Int) = .ok
                then [Ev.refresh] else []))
    ∧ (∀ (c : Client) (dev : Device) (data : Option (List (String × ℚ)))
          (o : String) (sv : Nat),
        optionToValue POWER_SWITCH_MAP o = some sv →
        modeOf data ≠ some 1 →
        ∀ v', Ev.devWrite (holdingAddress "power_switch_position") v'
            ∈ (powerSwitch_select_option c dev data o).2 →
          (async_write_register c dev (holdingAddress "modbus_control") 1).1 = true
          ∧ (powerSwitch_select_option c dev data o).2.take 3
              = [Ev.devWrite (holdingAddress "modbus_control") 1, Ev.refresh,
                 Ev.sleep 500]) := by
  refine ⟨?_, ?_, ?_, ?_⟩
  · intro c dev data value hmode hc hM
    rw [flowSetpoint_eq_guard c dev data value hmode,
      guardShape_modeOk c dev 2 _ _ hc hM]
    cases hT : dev.write (holdingAddress "flow_setpoint") (pyInt value) <;>
      simp [hT, isDevWrite]
  · intro c dev data value hmode v' hmem
    by_cases hM1 : (async_write_register c dev (holdingAddress "modbus_control") 2).1 = true
    · refine ⟨hM1, ?_⟩
      rw [flowSetpoint_eq_guard c dev data value hmode]
      exact guardShape_take3_of_modeTrue c dev 2 _ _ hM1
    · exfalso
      have hf : (async_write_register c dev (holdingAddress "modbus_control") 2).1 = false := by
        revert hM1
        cases (async_write_register c dev (holdingAddress "modbus_control") 2).1 <;> simp
      rw [flowSetpoint_eq_guard c dev data value hmode] at hmem
      exact guardShape_no_target_of_modeFail c dev 2 _ _ (by decide) hf v' hmem
  · intro c dev data o sv ho hmode hc hM
    rw [powerSwitch_eq_guard c dev data o sv ho hmode,
      guardShape_modeOk c dev 1 _ _ hc hM]
  · intro c dev data o sv ho hmode v' hmem
    by_cases hM1 : (async_write_register c dev (holdingAddress "modbus_control") 1).1 = true
    · refine ⟨hM1, ?_⟩
      rw [powerSwitch_eq_guard c dev data o sv ho hmode]
      exact guardShape_take3_of_modeTrue c dev 1 _ _ hM1
    · exfalso
      have hf : (async_write_register c dev (holdingAddress "modbus_control") 1).1 = false := by
        revert hM1
        cases (async_write_register c dev (holdingAddress "modbus_control") 1).1 <;> simp
      rw [powerSwitch_eq_guard c dev data o sv ho hmode] at hmem
      exact guardShape_no_target_of_modeFail c dev 1 _ _ (by decide) hf v' hmem

/-- Witness for C4: concrete guarded flow-setpoint write (cached mode 0,
device accepting all writes): both device writes appear in order with the
refresh and the 0.5 s sleep between them. -/
theorem C4_guarded_write_ordering_witness :
    (flowSetpoint_set_native_value connectedClient devAllOk dataMode0 200).2
      = [Ev.devWrite (holdingAddress "modbus_control") 2, Ev.refresh, Ev.sleep 500,
          Ev.devWrite (holdingAddress "flow_setpoint") (pyInt 200), Ev.refresh]
    ∧ ((flowSetpoint_set_native_value connectedClient devAllOk dataMode0 200).2.filter
        isDevWrite)
      = [Ev.devWrite (holdingAddress "modbus_control") 2,
         Ev.devWrite (holdingAddress "flow_setpoint") (pyInt 200)] := by
  have hmode : modeOf dataMode0 ≠ some 2 := by
    intro h
    rw [show modeOf dataMode0 = some 0 from rfl, Option.some_inj] at h
    norm_num at h
  have h := C4_guarded_write_ordering.1 connectedClient devAllOk dataMode0 200
    hmode rfl rfl
  refine ⟨?_, h.2⟩
  rw [h.1]
  simp [devAllOk]

/-- C5: guarded write abort.  For both guarded writes, whenever the
precondition `modbus_control` write returns false, the whole operation stops
on its mode-write-failure path (the early return after the error report) and
the target register write never reaches the link. -/
theorem C5_guarded_write_abort :
    (∀ (c : Client) (dev : Device) (data : Option (List (String × ℚ))) (value : ℚ),
      modeOf data ≠ some 2 →
      (async_write_register c dev (holdingAddress "modbus_control") 2).1 = false →
      (flowSetpoint_set_native_value c dev data value).1 = SetOutcome.modeWriteFailed
      ∧ ∀ v', Ev.devWrite (holdingAddress "flow_setpoint") v'
          ∉ (flowSetpoint_set_native_value c dev data value).2)
    ∧ (∀ (c : Client) (dev : Device) (data : Option (List (String × ℚ)))
          (o : String) (sv : Nat),
        optionToValue POWER_SWITCH_MAP o = some sv →
        modeOf data ≠ some 1 →
        (async_write_register c dev (holdingAddress "modbus_control") 1).1 = false →
        (powerSwitch_select_option c dev data o).1 = SetOutcome.modeWriteFailed
        ∧ ∀ v', Ev.devWrite (holdingAddress "power_switch_position") v'
            ∉ (powerSwitch_select_option c dev data o).2) := by
  constructor
  · intro c dev data value hmode hf
    rw [flowSetpoint_eq_guard c dev data value hmode]
    refine ⟨by rw [guardShape_modeFail c dev 2 _ _ hf], ?_⟩
    exact guardShape_no_target_of_modeFail c dev 2 _ _ (by decide) hf
  · intro c dev data o sv ho hmode hf
    rw [powerSwitch_eq_guard c dev data o sv ho hmode]
    refine ⟨by rw [guardShape_modeFail c dev 1 _ _ hf], ?_⟩
    exact guardShape_no_target_of_modeFail c dev 1 _ _ (by decide) hf

/-- Witness for C5: with a device answering every write with an error reply,
the guarded flow-setpoint write stops on the mode-write failure and never
writes the setpoint register. -/
theorem C5_guarded_write_abort_witness :
    (flowSetpoint_set_native_value connectedClient devWriteErrReply dataMode0 200).1
      = SetOutcome.modeWriteFailed
    ∧ Ev.devWrite (holdingAddress "flow_setpoint") (pyInt 200)
        ∉ (flowSetpoint_set_native_value connectedClient devWriteErrReply dataMode0 200).2 := by
  have hmode : modeOf dataMode0 ≠ some 2 := by
    intro h
    rw [show modeOf dataMode0 = some 0 from rfl, Option.some_inj] at h
    norm_num at h
  have h := C5_guarded_write_abort.1 connectedClient devWriteErrReply dataMode0 200
    hmode rfl
  exact ⟨h.1, h.2 (pyInt 200)⟩

/-- C10: refresh per write.  Every `async_write_register` call that returns
true has requested an out-of-cycle refresh right after its device write
(trace `[write, refresh]`), including the precondition mode write of a
guarded write: a guarded flow-setpoint write whose cached mode differs from 2
and whose two writes are accepted produces two refresh requests, the first
after the mode write and before both the 0.5 s settle sleep and the target
write. -/
theorem C10_refresh_per_successful_write :
    (∀ (c : Client) (dev : Device) (addr : Nat) (v : Int),
      (async_write_register c dev addr v).1 = true →
      (async_write_register c dev addr v).2 = [Ev.devWrite addr v, Ev.refresh])
    ∧ (∀ (c : Client) (dev : Device) (data : Option (List (String × ℚ))) (value : ℚ),
        modeOf data ≠ some 2 → c.connected = true →
        dev.write (holdingAddress "modbus_control") 2 = .ok →
        dev.write (holdingAddress "flow_setpoint") (pyInt value) = .ok →
        (flowSetpoint_set_native_value c dev data value).2
          = [Ev.devWrite (holdingAddress "modbus_control") 2, Ev.refresh, Ev.sleep 500,
             Ev.devWrite (holdingAddress "flow_setpoint") (pyInt value), Ev.refresh]) := by
  constructor
  · intro c dev addr v h
    rw [awr_of_true c dev addr v h]
  · intro c dev data value hmode hc hM hT
    rw [flowSetpoint_eq_guard c dev data value hmode,
      guardShape_modeOk c dev 2 _ _ hc hM]
    simp [hT]

/-- Witness for C10: the concrete guarded flow-setpoint write issues its two
refresh requests in the stated positions, and a plain successful write's
trace is `[write, refresh]`. -/
theorem C10_refresh_per_successful_write_witness :
    (async_write_register connectedClient devAllOk 6000 100).2
      = [Ev.devWrite 6000 100, Ev.refresh]
    ∧ (flowSetpoint_set_native_value connectedClient devAllOk dataMode0 200).2
      = [Ev.devWrite (holdingAddress "modbus_control") 2, Ev.refresh, Ev.sleep 500,
         Ev.devWrite (holdingAddress "flow_setpoint") (pyInt 200), Ev.refresh] := by
  have hmode : modeOf dataMode0 ≠ some 2 := by
    intro h
    rw [show modeOf dataMode0 = some 0 from rfl, Option.some_inj] at h
    norm_num at h
  exact ⟨C10_refresh_per_successful_write.1 connectedClient devAllOk 6000 100 rfl,
    C10_refresh_per_successful_write.2 connectedClient devAllOk dataMode0 200
      hmode rfl rfl rfl⟩

/-- C2: bounds enforcement on the write path.  For every number entity
backed by a writable descriptor, a requested value outside the declared
[min, max] bounds is rejected by the (spec-modelled) Home Assistant
validation layer as a validation failure with an empty event trace — no
`write_register` call reaches the transport.  Stated for the plain number
entities and for the guarded flow-setpoint entity. -/
theorem C2_bounds_enforcement :
    (∀ (c : Client) (dev : Device) (k : String) (dmin dmax : Int) (value : ℚ),
      (value < (entityBounds k dmin dmax).1 ∨ (entityBounds k dmin dmax).2 < value) →
      ha_number_set_value (entityBounds k dmin dmax).1 (entityBounds k dmin dmax).2
          value (numberEntity_set_native_value c dev k)
        = (SetOutcome.validationError, []))
    ∧ (∀ (c : Client) (dev : Device) (data : Option (List (String × ℚ))) (value : ℚ),
      (value < (entityBounds "flow_setpoint" 50 325).1
        ∨ (entityBounds "flow_setpoint" 50 325).2 < value) →
      ha_number_set_value (entityBounds "flow_setpoint" 50 325).1
          (entityBounds "flow_setpoint" 50 325).2 value
          (flowSetpoint_set_native_value c dev data)
        = (SetOutcome.validationError, [])) := by
  constructor
  · intro c dev k dmin dmax value h
    unfold ha_number_set_value
    rw [if_pos h]
  · intro c dev data value h
    unfold ha_number_set_value
    rw [if_pos h]

/-- Witness for C2: requesting flow setpoint 400 (above the declared max
325) is rejected with no device I/O. -/
theorem C2_bounds_enforcement_witness :
    ha_number_set_value (entityBounds "flow_setpoint" 50 325).1
        (entityBounds "flow_setpoint" 50 325).2 400
        (numberEntity_set_native_value connectedClient devAllOk "flow_setpoint")
      = (SetOutcome.validationError, []) := by
  apply C2_bounds_enforcement.1 connectedClient devAllOk "flow_setpoint" 50 325 400
  right
  show ((325 : Int) : ℚ) < 400
  norm_num
